import Mathlib

/-!
# Persistence cache of the LaunchDarkly example (`src/main.cpp`)

A shallow embedding of the two `IPersistence` backends of `src/main.cpp`
(`SQLitePersistence`, `FilePersistence`) and of `getCacheBaseDirectory`.

* A `std::string` is a Lean `String`; the character `'\x00'` is the zero
  terminator of a C string. What crosses a `char const*` interface (the text
  bound by `sqlite3_bind_text` with length `-1`, the path handed to a system
  call by a stream or by `std::filesystem`) is `c_str` of the string: its
  characters before the first zero terminator.
* A `std::filesystem::path` is the string it is spelled with, in the POSIX
  format (the source hands `path::c_str()` to `sqlite3_open`, which takes a
  `char const*`, so `path::value_type` is `char`).
* The filesystem is the list of regular files it holds, each under the path
  the operating system was given for it. Every other reason a primitive can
  fail for (a missing directory, permissions, a full disk) is an outcome given
  by the `OS` record that each call receives.
* The `storage` table is the list of its rows.
* The methods of `IPersistence` are `noexcept`. A `Read` ends in an `Outcome`:
  it returns, or an exception that it does not catch reaches its `noexcept`
  boundary, or it reads storage that was released.
-/

namespace LDPersistence

/-! ## Outcomes -/

/-- How a call of a `noexcept` method ends. -/
inductive Outcome (α : Type) where
  /-- The method returns the value `a`. -/
  | returns (a : α)
  /-- An exception that no handler of the method catches reaches the
  `noexcept` boundary, and `std::terminate` is called. -/
  | terminate
  /-- The method reads storage that was released before: the behaviour is
  undefined, and what is returned, if anything, is what the released storage
  holds. -/
  | undefined
deriving DecidableEq, Repr

/-! ## C strings -/

/-- The text a `char const*` denotes: the characters before the first zero
terminator. It is what `sqlite3_bind_text(stmt, i, s.c_str(), -1, _)` binds (a
negative length means up to the first zero terminator) and the path a system
call receives from `path::c_str()`. -/
def c_str (s : String) : String :=
  String.mk (s.data.takeWhile (fun c => c != '\x00'))

/-! ## `std::filesystem::path` -/

/-- The path separator of the generic and of the POSIX native format. -/
def preferred_separator : Char := '/'

/-- Reading of `path::is_absolute()` in the POSIX format: the path has a root
directory, which is to say that it starts with the separator. -/
def is_absolute (p : String) : Bool :=
  p.data.head? == some preferred_separator

/-- Reading of `path::has_filename()`: the path is not empty and does not
end with the separator. -/
def has_filename (p : String) : Bool :=
  match p.data.getLast? with
  | none => false
  | some c => c != preferred_separator

/-- Reading of `operator/(path const&, path const&)` ([fs.path.append]) in
the POSIX format, where no path has a root name: an absolute right operand
replaces the left one; otherwise a separator is added when the left operand
has a filename, and the right operand is appended. -/
def pathAppend (p q : String) : String :=
  if is_absolute q then q
  else if has_filename p then p ++ "/" ++ q
  else p ++ q

/-! ## The filesystem -/

/-- A regular file: the path it lives at and its content. -/
abbrev File := String × String

/-- The regular files present, each path listed once by the operations below. -/
abbrev FS := List File

/-- Content of the regular file at `p`, if there is one. -/
def FS.lookup (fs : FS) (p : String) : Option String :=
  (fs.find? (fun f => f.1 == p)).map (fun f => f.2)

/-- Unlink `p`. -/
def FS.erase (fs : FS) (p : String) : FS :=
  fs.filter (fun f => !(f.1 == p))

/-- Create `p` with content `c`, or replace the content of `p` by `c`. -/
def FS.write (fs : FS) (p c : String) : FS :=
  (p, c) :: fs.erase p

/-- Number of directory entries spelled `p`. -/
def FS.count (fs : FS) (p : String) : Nat :=
  (fs.filter (fun f => f.1 == p)).length

/-- What the operating system does with the primitives of one call. -/
structure OS where
  /-- Whether `create_directories` fails. -/
  mkdirFails : Bool
  /-- Whether opening a file stream fails (for reading: although the file exists). -/
  openFails : Bool
  /-- The value `none`: the stream writes all it is given; `some n`: the write
  fails after `n` characters have reached the file (the stream goes bad, it
  does not throw: the exception mask of a stream is empty by default). -/
  written : Option Nat
  /-- Whether `std::filesystem::rename` fails. -/
  renameFails : Bool
  /-- Whether `std::filesystem::remove` fails. -/
  removeFails : Bool
  /-- Whether an input stream opens and then fails to read, as it does on a
  path that names a directory: the stream buffer throws
  `std::ios_base::failure`. -/
  readFails : Bool
deriving DecidableEq, Repr

/-- An operating system on which every primitive succeeds. -/
def OS.ok : OS := ⟨false, false, none, false, false, false⟩

/-- Error carried by `std::filesystem::filesystem_error`. -/
inductive filesystem_error where
  | create_directories
  | rename
  | remove
deriving DecidableEq, Repr

/-- Reading of `std::filesystem::create_directories(p)`, the overload without
an `error_code`: it throws `filesystem_error` when the directory cannot be
created. Directories are not part of `FS`, so success leaves `FS` as it is. -/
def create_directories (os : OS) (fs : FS) (_p : String) : Except filesystem_error FS :=
  if os.mkdirFails then .error .create_directories else .ok fs

/-- Reading of `std::ofstream ofs(p)`, which opens `p.c_str()` for writing,
truncating the file or creating it empty. The value `none` is a stream for
which `!ofs` holds. -/
def ofstream_open (os : OS) (fs : FS) (p : String) : Option FS :=
  if os.openFails then none else some (fs.write (c_str p) "")

/-- Reading of `ofs << data; ofs.close();` on the stream opened on `p`: the
`data.size()` characters of `data` are written. A failed write leaves the
characters already written in the file. -/
def ofstream_write (os : OS) (fs : FS) (p data : String) : FS :=
  match os.written with
  | none => fs.write (c_str p) data
  | some n => fs.write (c_str p) (String.mk (data.data.take n))

/-- Reading of `std::filesystem::rename(old_p, new_p)`, the system call
`rename(old_p.c_str(), new_p.c_str())`: `new_p` is replaced by the file
`old_p`, which no longer exists under its old name. -/
def rename (os : OS) (fs : FS) (old_p new_p : String) : Except filesystem_error FS :=
  if os.renameFails then .error .rename
  else
    match fs.lookup (c_str old_p) with
    | none => .error .rename
    | some c => .ok ((fs.erase (c_str old_p)).write (c_str new_p) c)

/-- Reading of `std::filesystem::remove(p)`, the system call
`remove(p.c_str())`: deletes the file; a file that does not exist is not an
error. -/
def remove (os : OS) (fs : FS) (p : String) : Except filesystem_error FS :=
  if os.removeFails then .error .remove else .ok (fs.erase (c_str p))

/-- What `std::ifstream ifs(p)` followed by reading the stream to its end
through `std::istreambuf_iterator` yields. -/
inductive ifstream_result where
  /-- The stream did not open: `!ifs` holds. -/
  | not_open
  /-- The stream opened and was read to its end: the characters read. -/
  | data (s : String)
  /-- The stream opened and the read failed: the stream buffer throws
  `std::ios_base::failure`, which is not a `filesystem_error`. -/
  | failure
deriving DecidableEq, Repr

/-- Reading of `std::ifstream ifs(p)`, which opens `p.c_str()`, followed by
reading the stream to its end. A stream opens on a regular file; it also opens
on a directory, where the read then fails. -/
def ifstream_read (os : OS) (fs : FS) (p : String) : ifstream_result :=
  if os.openFails then .not_open
  else if os.readFails then .failure
  else
    match fs.lookup (c_str p) with
    | none => .not_open
    | some s => .data s

/-! ## `FilePersistence` -/

/-- The class `FilePersistence`: its only member is `_basePath`. -/
structure FilePersistence where
  _basePath : String
deriving DecidableEq, Repr

/-- The constructor `FilePersistence(std::string basePath)`. It has no handler:
what `create_directories` throws leaves the constructor. -/
def FilePersistence.new (os : OS) (fs : FS) (basePath : String) :
    Except filesystem_error (FS × FilePersistence) :=
  match create_directories os fs basePath with
  | .error e => .error e
  | .ok fs1 => .ok (fs1, ⟨basePath⟩)

/-- The local `filename` of `Set`, `Remove` and `Read`:
`_basePath / (storage_namespace + "-" + key + ".json")`. -/
def FilePersistence.filename (self : FilePersistence) (storage_namespace key : String) : String :=
  pathAppend self._basePath (storage_namespace ++ "-" ++ key ++ ".json")

/-- The local `tempFilename` of `Set`: `filename.string() + ".tmp"`. -/
def FilePersistence.tempFilename (self : FilePersistence) (storage_namespace key : String) :
    String :=
  self.filename storage_namespace key ++ ".tmp"

/-- The first part of `Set`, up to `ofs.close()`: the temporary file is opened
and written. The value `none` is the early `return` taken when `!ofs`. -/
def FilePersistence.stage (os : OS) (self : FilePersistence) (fs : FS)
    (storage_namespace key data : String) : Option FS :=
  let tempFilename := self.tempFilename storage_namespace key
  match ofstream_open os fs tempFilename with
  | none => none
  | some fs1 => some (ofstream_write os fs1 tempFilename data)

/-- The method `FilePersistence::Set`. -/
def FilePersistence.Set (os : OS) (self : FilePersistence) (fs : FS)
    (storage_namespace key data : String) : FS :=
  let filename := self.filename storage_namespace key
  let tempFilename := self.tempFilename storage_namespace key
  match self.stage os fs storage_namespace key data with
  | none => fs
  | some fs2 =>
    match rename os fs2 tempFilename filename with
    | .ok fs3 => fs3
    | .error _ => fs2

/-- The method `FilePersistence::Remove`. -/
def FilePersistence.Remove (os : OS) (self : FilePersistence) (fs : FS)
    (storage_namespace key : String) : FS :=
  let filename := self.filename storage_namespace key
  match remove os fs filename with
  | .ok fs1 => fs1
  | .error _ => fs

/-- The method `FilePersistence::Read`. Its handler catches
`std::filesystem::filesystem_error` only: the `std::ios_base::failure` of a
failed read leaves the `noexcept` method. -/
def FilePersistence.Read (os : OS) (self : FilePersistence) (fs : FS)
    (storage_namespace key : String) : Outcome (Option String) :=
  let filename := self.filename storage_namespace key
  match ifstream_read os fs filename with
  | .not_open => .returns none
  | .data data => .returns (some data)
  | .failure => .terminate

/-! ## `SQLitePersistence` -/

/-- A row of `storage (namespace TEXT NOT NULL, key TEXT NOT NULL, value TEXT,
PRIMARY KEY (namespace, key))`. The column `namespace` is spelled
`storage_namespace`, as the parameters of the source are. Rows are those that
`Set` writes, so `value` is never NULL. -/
structure Row where
  storage_namespace : String
  key : String
  value : String
deriving DecidableEq, Repr

/-- The content of the `storage` table. -/
abbrev Table := List Row

/-- The primary key of a row. -/
def Row.pk (r : Row) : String × String := (r.storage_namespace, r.key)

/-- The constraint `PRIMARY KEY (namespace, key)`: no two rows share both. -/
def PrimaryKey (t : Table) : Prop := (t.map Row.pk).Nodup

instance (t : Table) : Decidable (PrimaryKey t) := by
  unfold PrimaryKey; infer_instance

/-- The clause `WHERE namespace = ? AND key = ?`, and the conflict target
`(namespace, key)`, with the two bound values. -/
def Row.matches (r : Row) (ns key : String) : Bool :=
  r.storage_namespace == ns && r.key == key

/-- Number of rows of `t` with the given namespace and key. -/
def Table.count (t : Table) (storage_namespace key : String) : Nat :=
  t.countP (fun r => r.matches storage_namespace key)

/-- The statement `INSERT INTO storage (namespace, key, value) VALUES (?, ?, ?)
ON CONFLICT(namespace, key) DO UPDATE SET value=excluded.value`. -/
def Table.upsert (t : Table) (ns key value : String) : Table :=
  if t.any (fun r => r.matches ns key) then
    t.map (fun r => if r.matches ns key then Row.mk r.storage_namespace r.key value else r)
  else
    t ++ [Row.mk ns key value]

/-- The statement `DELETE FROM storage WHERE namespace = ? AND key = ?`. -/
def Table.delete (t : Table) (ns key : String) : Table :=
  t.filter (fun r => !(r.matches ns key))

/-- The statement `SELECT value FROM storage WHERE namespace = ? AND key = ?`,
stepped once: the first result row, if there is one. -/
def Table.select (t : Table) (ns key : String) : Option String :=
  (t.find? (fun r => r.matches ns key)).map (fun r => r.value)

/-- What the storage engine does with the statement of one call. -/
structure Engine where
  /-- Whether `sqlite3_prepare_v2` fails although the table exists. -/
  prepareFails : Bool
  /-- Whether `sqlite3_step` returns an error code (busy, full, I/O error). -/
  stepFails : Bool
deriving DecidableEq, Repr

/-- An engine on which every call succeeds. -/
def Engine.ok : Engine := ⟨false, false⟩

/-- The class `SQLitePersistence`. The member `_db` is `none` when no statement
on `storage` can be prepared (the open failed, or the table was not created),
and the content of the table otherwise. -/
structure SQLitePersistence where
  _db : Option Table
deriving DecidableEq, Repr

/-- The constructor `SQLitePersistence(path dbPath)` on a database file whose
`storage` table is `file` (`none`: no such table yet). -/
def SQLitePersistence.new (openFails execFails : Bool) (file : Option Table) :
    SQLitePersistence :=
  if openFails then ⟨none⟩
  else if execFails then ⟨file⟩
  else
    match file with
    | some t => ⟨some t⟩
    | none => ⟨some []⟩

/-- Reading of `sqlite3_prepare_v2(_db, sql, -1, &stmt, nullptr) == SQLITE_OK`:
the table the prepared statement runs on. -/
def sqlite3_prepare_v2 (e : Engine) (self : SQLitePersistence) : Option Table :=
  if e.prepareFails then none else self._db

/-- The method `SQLitePersistence::Set`. -/
def SQLitePersistence.Set (e : Engine) (self : SQLitePersistence)
    (storage_namespace key data : String) : SQLitePersistence :=
  match sqlite3_prepare_v2 e self with
  | some t =>
    if e.stepFails then self
    else ⟨some (t.upsert (c_str storage_namespace) (c_str key) (c_str data))⟩
  | none => self

/-- The method `SQLitePersistence::Remove`. -/
def SQLitePersistence.Remove (e : Engine) (self : SQLitePersistence)
    (storage_namespace key : String) : SQLitePersistence :=
  match sqlite3_prepare_v2 e self with
  | some t =>
    if e.stepFails then self
    else ⟨some (t.delete (c_str storage_namespace) (c_str key))⟩
  | none => self

/-- The method `SQLitePersistence::Read`. When `sqlite3_step` yields a row, the
source takes the pointer `sqlite3_column_text(stmt, 0)`, calls
`sqlite3_finalize(stmt)`, and only then copies the text with
`std::string(char const*)`. The pointer is valid until `sqlite3_finalize`
only, so the copy reads released storage. -/
def SQLitePersistence.Read (e : Engine) (self : SQLitePersistence)
    (storage_namespace key : String) : Outcome (Option String) :=
  match sqlite3_prepare_v2 e self with
  | some t =>
    if e.stepFails then .returns none
    else
      match t.select (c_str storage_namespace) (c_str key) with
      | some _value => .undefined
      | none => .returns none
  | none => .returns none

/-! ## The path resolver -/

/-- The function `getCacheBaseDirectory`, given `std::getenv` and the value of
`std::filesystem::temp_directory_path()`. -/
def getCacheBaseDirectory (getenv : String → Option String) (temp_directory_path : String) :
    String :=
  match getenv "LD_CACHE_DIR" with
  | some LD_CACHE_DIR => LD_CACHE_DIR
  | none =>
    match getenv "XDG_CACHE_HOME" with
    | none => temp_directory_path
    | some _ => pathAppend temp_directory_path "launchdarkly"

/-! ## Lemmas on the filesystem -/

theorem FS.lookup_erase (fs : FS) (p q : String) :
    (fs.erase p).lookup q = if q = p then none else fs.lookup q := by
  induction fs with
  | nil => simp [FS.erase, FS.lookup]
  | cons f fs ih =>
    obtain ⟨a, b⟩ := f
    simp only [FS.erase, FS.lookup] at ih ⊢
    by_cases hp : a = p
    · subst hp
      by_cases hq : q = a
      · subst hq
        simp only [List.filter_cons, beq_self_eq_true, Bool.not_true, Bool.false_eq_true,
          if_false]
        simp only [if_true] at ih ⊢
        exact ih
      · have hqb : (a == q) = false := by simpa using fun h : a = q => hq h.symm
        simp only [List.filter_cons, beq_self_eq_true, Bool.not_true, Bool.false_eq_true,
          if_false, List.find?_cons, hqb]
        simp only [hq, if_false] at ih ⊢
        exact ih
    · have hpb : (a == p) = false := by simpa using hp
      by_cases hq : a = q
      · subst hq
        simp [List.filter_cons, hpb, List.find?_cons, hp]
      · have hqb : (a == q) = false := by simpa using hq
        simp only [List.filter_cons, hpb, Bool.not_false, if_true, List.find?_cons, hqb]
        exact ih

theorem FS.lookup_write (fs : FS) (p c q : String) :
    (fs.write p c).lookup q = if q = p then some c else fs.lookup q := by
  by_cases hq : q = p
  · subst hq; simp [FS.write, FS.lookup]
  · have hpq : ¬ p = q := fun h => hq h.symm
    have h := FS.lookup_erase fs p q
    simp only [FS.lookup] at h
    simp [FS.write, FS.lookup, List.find?_cons, hpq, hq, h]

theorem FS.count_erase_self (fs : FS) (p : String) : (fs.erase p).count p = 0 := by
  simp [FS.erase, FS.count, List.filter_filter]

theorem FS.count_write_self (fs : FS) (p c : String) : (fs.write p c).count p = 1 := by
  have h := FS.count_erase_self fs p
  simp only [FS.count] at h
  simp [FS.write, FS.count, List.filter_cons, h]

theorem FS.count_erase_of_ne (fs : FS) (p q : String) (h : q ≠ p) :
    (fs.erase p).count q = fs.count q := by
  simp only [FS.erase, FS.count, List.filter_filter]
  congr 1
  apply List.filter_congr
  intro f _
  by_cases hf : f.1 = q
  · have : ¬ f.1 = p := fun e => h (hf.symm.trans e)
    simp [hf, this, h]
  · simp [hf]

theorem FS.count_write_of_ne (fs : FS) (p c q : String) (h : q ≠ p) :
    (fs.write p c).count q = fs.count q := by
  have h1 := FS.count_erase_of_ne fs p q h
  have hpq : ¬ p = q := fun e => h e.symm
  simp only [FS.count] at h1
  simp [FS.write, FS.count, List.filter_cons, hpq, h1]

/-! ## Lemmas on C strings -/

theorem c_str_of_not_mem (s : String) (h : '\x00' ∉ s.data) : c_str s = s := by
  obtain ⟨l⟩ := s
  simp only [c_str]
  congr 1
  rw [List.takeWhile_eq_self_iff]
  intro c hc
  have : ¬ c = '\x00' := fun e => h (e ▸ hc)
  simpa using this

/-! ## Lemmas on the file names -/

theorem FilePersistence.filename_suffix (self : FilePersistence) (ns key : String) :
    ∃ x : String, self.filename ns key = x ++ ".json" := by
  unfold FilePersistence.filename pathAppend
  split
  · exact ⟨ns ++ "-" ++ key, rfl⟩
  · split
    · exact ⟨self._basePath ++ "/" ++ (ns ++ "-" ++ key), by simp [String.append_assoc]⟩
    · exact ⟨self._basePath ++ (ns ++ "-" ++ key), by simp [String.append_assoc]⟩

theorem FilePersistence.tempFilename_ne_filename (a b : FilePersistence)
    (ns key ns' key' : String) : a.tempFilename ns key ≠ b.filename ns' key' := by
  obtain ⟨x, hx⟩ := a.filename_suffix ns key
  obtain ⟨y, hy⟩ := b.filename_suffix ns' key'
  intro h
  rw [FilePersistence.tempFilename, hx, hy] at h
  have h2 := congrArg (fun s : String => s.data.getLast?) h
  simp at h2

theorem List.append_cons_inj_of_not_mem {α : Type} (a : α) :
    ∀ (l₁ l₂ r₁ r₂ : List α), a ∉ l₁ → a ∉ l₂ → l₁ ++ a :: r₁ = l₂ ++ a :: r₂ →
      l₁ = l₂ ∧ r₁ = r₂
  | [], [], _, _, _, _, h => by simpa using h
  | [], b :: l₂, _, _, _, h₂, h => by
      simp only [List.nil_append, List.cons_append, List.cons.injEq] at h
      exact absurd h.1 (fun e => h₂ (e ▸ List.mem_cons_self _ _))
  | b :: l₁, [], _, _, h₁, _, h => by
      simp only [List.nil_append, List.cons_append, List.cons.injEq] at h
      exact absurd h.1.symm (fun e => h₁ (e ▸ List.mem_cons_self _ _))
  | b :: l₁, c :: l₂, r₁, r₂, h₁, h₂, h => by
      simp only [List.cons_append, List.cons.injEq] at h
      obtain ⟨hbc, ht⟩ := h
      have ih := List.append_cons_inj_of_not_mem a l₁ l₂ r₁ r₂
        (fun m => h₁ (List.mem_cons_of_mem _ m)) (fun m => h₂ (List.mem_cons_of_mem _ m)) ht
      exact ⟨by rw [hbc, ih.1], ih.2⟩

theorem is_absolute_name (ns key : String) (h : is_absolute ns = false) :
    is_absolute (ns ++ "-" ++ key ++ ".json") = false := by
  obtain ⟨l⟩ := ns
  cases l with
  | nil => simp [is_absolute, preferred_separator]
  | cons c l => simpa [is_absolute, preferred_separator] using h

theorem is_absolute_of_not_mem (ns : String) (h : preferred_separator ∉ ns.data) :
    is_absolute ns = false := by
  obtain ⟨l⟩ := ns
  cases l with
  | nil => simp [is_absolute]
  | cons c l =>
    have : ¬ c = preferred_separator := fun e => h (by simp [e])
    simpa [is_absolute] using this

theorem FilePersistence.filename_eq (base ns key : String) (hb : has_filename base = true)
    (hn : is_absolute ns = false) :
    FilePersistence.filename ⟨base⟩ ns key = base ++ "/" ++ ns ++ "-" ++ key ++ ".json" := by
  unfold FilePersistence.filename pathAppend
  rw [is_absolute_name ns key hn]
  simp [hb, String.append_assoc]

theorem FilePersistence.filename_inj (self : FilePersistence) (ns₁ k₁ ns₂ k₂ : String)
    (h₁ : is_absolute ns₁ = false) (h₂ : is_absolute ns₂ = false)
    (d₁ : '-' ∉ ns₁.data) (d₂ : '-' ∉ ns₂.data)
    (h : self.filename ns₁ k₁ = self.filename ns₂ k₂) : ns₁ = ns₂ ∧ k₁ = k₂ := by
  have key : ns₁.data ++ '-' :: (k₁.data ++ ".json".data)
      = ns₂.data ++ '-' :: (k₂.data ++ ".json".data) := by
    unfold FilePersistence.filename pathAppend at h
    rw [is_absolute_name ns₁ k₁ h₁, is_absolute_name ns₂ k₂ h₂] at h
    simp only [Bool.false_eq_true, if_false] at h
    split at h
    · have h' := congrArg String.data h
      simpa [String.data_append] using h'
    · have h' := congrArg String.data h
      simpa [String.data_append] using h'
  obtain ⟨e₁, e₂⟩ := List.append_cons_inj_of_not_mem '-' _ _ _ _ d₁ d₂ key
  exact ⟨String.ext e₁, String.ext (List.append_cancel_right e₂)⟩

theorem FilePersistence.filename_not_mem (self : FilePersistence) (ns key : String)
    (hb : '\x00' ∉ self._basePath.data) (hn : '\x00' ∉ ns.data) (hk : '\x00' ∉ key.data) :
    '\x00' ∉ (self.filename ns key).data := by
  unfold FilePersistence.filename pathAppend
  split
  · simp [String.data_append, hn, hk]
  · split
    · simp [String.data_append, hb, hn, hk]
    · simp [String.data_append, hb, hn, hk]

theorem FilePersistence.c_str_filename (self : FilePersistence) (ns key : String)
    (hb : '\x00' ∉ self._basePath.data) (hn : '\x00' ∉ ns.data) (hk : '\x00' ∉ key.data) :
    c_str (self.filename ns key) = self.filename ns key :=
  c_str_of_not_mem _ (self.filename_not_mem ns key hb hn hk)

theorem FilePersistence.c_str_tempFilename (self : FilePersistence) (ns key : String)
    (hb : '\x00' ∉ self._basePath.data) (hn : '\x00' ∉ ns.data) (hk : '\x00' ∉ key.data) :
    c_str (self.tempFilename ns key) = self.tempFilename ns key := by
  apply c_str_of_not_mem
  have h := self.filename_not_mem ns key hb hn hk
  simp [FilePersistence.tempFilename, String.data_append, h]

/-! ## Lemmas on `FilePersistence` -/

theorem FilePersistence.stage_ok (self : FilePersistence) (fs : FS) (ns key data : String) :
    self.stage OS.ok fs ns key data
      = some ((fs.write (c_str (self.tempFilename ns key)) "").write
          (c_str (self.tempFilename ns key)) data) := by
  rfl

theorem FilePersistence.Set_ok (self : FilePersistence) (fs : FS) (ns key data : String) :
    self.Set OS.ok fs ns key data
      = ((((fs.write (c_str (self.tempFilename ns key)) "").write
            (c_str (self.tempFilename ns key)) data).erase
          (c_str (self.tempFilename ns key))).write (c_str (self.filename ns key)) data) := by
  unfold FilePersistence.Set
  simp only [FilePersistence.stage_ok]
  simp [rename, OS.ok, FS.lookup_write]

theorem FilePersistence.lookup_Set_ok (self : FilePersistence) (fs : FS)
    (ns key data q : String) :
    (self.Set OS.ok fs ns key data).lookup q
      = if q = c_str (self.filename ns key) then some data
        else if q = c_str (self.tempFilename ns key) then none else fs.lookup q := by
  rw [FilePersistence.Set_ok]
  simp only [FS.lookup_write, FS.lookup_erase]
  split
  · rfl
  · split <;> rfl

theorem FilePersistence.Read_eq (self : FilePersistence) (fs : FS) (ns key : String) :
    self.Read OS.ok fs ns key = Outcome.returns (fs.lookup (c_str (self.filename ns key))) := by
  simp only [FilePersistence.Read, ifstream_read, OS.ok]
  cases fs.lookup (c_str (self.filename ns key)) <;> rfl

theorem FilePersistence.Remove_ok (self : FilePersistence) (fs : FS) (ns key : String) :
    self.Remove OS.ok fs ns key = fs.erase (c_str (self.filename ns key)) := by
  rfl

theorem Row.matches_iff (r : Row) (ns key : String) :
    r.matches ns key = true ↔ r.pk = (ns, key) := by
  simp [Row.matches, Row.pk]

theorem Table.any_iff_mem (t : Table) (ns key : String) :
    t.any (fun r => r.matches ns key) = true ↔ (ns, key) ∈ t.map Row.pk := by
  simp only [List.any_eq_true, Row.matches_iff, List.mem_map]

theorem Table.map_pk_upsert (t : Table) (ns key value : String) :
    (t.upsert ns key value).map Row.pk
      = if t.any (fun r => r.matches ns key) then t.map Row.pk
        else t.map Row.pk ++ [(ns, key)] := by
  unfold Table.upsert
  split
  · rw [List.map_map]
    apply List.map_congr_left
    intro r _
    simp only [Function.comp]
    split <;> rfl
  · simp [Row.pk]

theorem Table.primaryKey_upsert (t : Table) (ns key value : String) (h : PrimaryKey t) :
    PrimaryKey (t.upsert ns key value) := by
  unfold PrimaryKey at h ⊢
  rw [Table.map_pk_upsert]
  split
  · exact h
  · rename_i hn
    rw [Table.any_iff_mem] at hn
    rw [List.nodup_append]
    refine ⟨h, List.nodup_singleton _, ?_⟩
    intro x hx hx'
    rw [List.mem_singleton] at hx'
    exact hn (hx' ▸ hx)

theorem Table.count_eq_zero (t : Table) (ns key : String) (h : (ns, key) ∉ t.map Row.pk) :
    t.count ns key = 0 := by
  unfold Table.count
  rw [List.countP_eq_zero]
  intro r hr hm
  exact h (List.mem_map.mpr ⟨r, hr, (Row.matches_iff r ns key).mp hm⟩)

theorem Table.count_le_one (t : Table) (ns key : String) (h : PrimaryKey t) :
    t.count ns key ≤ 1 := by
  induction t with
  | nil => simp [Table.count]
  | cons r t ih =>
    unfold PrimaryKey at h
    rw [List.map_cons, List.nodup_cons] at h
    have ih' := ih h.2
    unfold Table.count at ih' ⊢
    rw [List.countP_cons]
    by_cases hm : r.matches ns key = true
    · have hz := Table.count_eq_zero t ns key ((Row.matches_iff r ns key).mp hm ▸ h.1)
      unfold Table.count at hz
      simp [hm, hz]
    · simp only [hm, Bool.false_eq_true, if_false, Nat.add_zero]
      exact ih'

theorem Table.count_pos (t : Table) (ns key : String)
    (h : t.any (fun r => r.matches ns key) = true) : 0 < t.count ns key := by
  unfold Table.count
  rw [List.countP_pos_iff]
  simpa using h

theorem Table.count_upsert (t : Table) (ns key value ns' key' : String) :
    (t.upsert ns key value).count ns' key'
      = if t.any (fun r => r.matches ns key) then t.count ns' key'
        else t.count ns' key' + (if ns = ns' ∧ key = key' then 1 else 0) := by
  unfold Table.upsert Table.count
  split
  · rw [List.countP_map]
    apply List.countP_congr
    intro r _
    simp only [Function.comp]
    split <;> simp [Row.matches]
  · rw [List.countP_append]
    by_cases e : ns = ns' ∧ key = key'
    · simp [Row.matches, e]
    · simp only [e, if_false, Nat.add_zero, Nat.add_eq_left]
      rw [List.countP_eq_zero]
      intro r hr
      rw [List.mem_singleton] at hr
      subst hr
      simpa [Row.matches] using e

theorem Table.count_upsert_self (t : Table) (ns key value : String) (h : PrimaryKey t) :
    (t.upsert ns key value).count ns key = 1 := by
  rw [Table.count_upsert]
  split
  · rename_i hy
    have h1 := Table.count_le_one t ns key h
    have h2 := Table.count_pos t ns key hy
    omega
  · rename_i hn
    have : (ns, key) ∉ t.map Row.pk := fun m => hn ((Table.any_iff_mem t ns key).mpr m)
    simp [Table.count_eq_zero t ns key this]

theorem Table.select_upsert_self (t : Table) (ns key value : String) :
    (t.upsert ns key value).select ns key = some value := by
  unfold Table.upsert
  split
  · rename_i hy
    unfold Table.select
    induction t with
    | nil => simp at hy
    | cons r t ih =>
      by_cases hr : r.matches ns key = true
      · have hr' : (Row.mk r.storage_namespace r.key value).matches ns key = true := hr
        simp only [List.map_cons, hr, if_true, List.find?_cons, hr', Option.map_some']
      · have hrb : r.matches ns key = false := by simpa using hr
        rw [List.any_cons, hrb, Bool.false_or] at hy
        simp only [List.map_cons, hrb, Bool.false_eq_true, if_false, List.find?_cons]
        exact ih hy
  · rename_i hn
    unfold Table.select
    have hnone : t.find? (fun r => r.matches ns key) = none := by
      rw [List.find?_eq_none]
      intro r hr hb
      exact hn (List.any_eq_true.mpr ⟨r, hr, hb⟩)
    have hm : (Row.mk ns key value).matches ns key = true := by simp [Row.matches]
    simp only [List.find?_append, hnone, Option.none_or, List.find?_cons, hm,
      Option.map_some']

/-- C1. File-store round trip: when the filesystem operations succeed, for
every namespace and key without the path separator and every value (the empty
one included), `Set(ns,k,v)` followed by `Read(ns,k)` returns `v`. -/
theorem file_set_read_round_trip (self : FilePersistence) (fs : FS) (ns k v : String)
    (_hns : preferred_separator ∉ ns.data) (_hk : preferred_separator ∉ k.data) :
    self.Read OS.ok (self.Set OS.ok fs ns k v) ns k = Outcome.returns (some v) := by
  rw [FilePersistence.Read_eq, FilePersistence.lookup_Set_ok, if_pos rfl]

/-- Instance of C1 on the example of the specification, and on the empty value. -/
theorem file_set_read_round_trip_witness :
    (preferred_separator ∉ "flags".data ∧ preferred_separator ∉ "my-boolean-flag".data) ∧
    FilePersistence.Read OS.ok ⟨"/tmp/cache"⟩
      (FilePersistence.Set OS.ok ⟨"/tmp/cache"⟩ [] "flags" "my-boolean-flag" "")
      "flags" "my-boolean-flag" = Outcome.returns (some "") :=
  ⟨⟨by decide, by decide⟩,
    file_set_read_round_trip ⟨"/tmp/cache"⟩ [] "flags" "my-boolean-flag" ""
      (by decide) (by decide)⟩

/-- C2, evaluated on the code: on an open structured store, for every table,
namespace, key and value, `Set(ns,k,v)` leaves a row for the pair that holds
`v` cut at its first zero terminator, and the `Read(ns,k)` that follows finds
that row and copies its text after `sqlite3_finalize` released it: it does not
return `v`, it reads released storage. So it is on a freshly opened store with
`("flags","my-boolean-flag","true")`. -/
theorem sqlite_read_after_set_is_undefined (t : Table) (ns k v : String) :
    (∃ t', SQLitePersistence.Set Engine.ok ⟨some t⟩ ns k v = ⟨some t'⟩ ∧
      t'.select (c_str ns) (c_str k) = some (c_str v)) ∧
    SQLitePersistence.Read Engine.ok (SQLitePersistence.Set Engine.ok ⟨some t⟩ ns k v) ns k
      = Outcome.undefined ∧
    SQLitePersistence.Set Engine.ok (SQLitePersistence.new false false none)
      "flags" "my-boolean-flag" "true" = ⟨some [⟨"flags", "my-boolean-flag", "true"⟩]⟩ ∧
    SQLitePersistence.Read Engine.ok
      (SQLitePersistence.Set Engine.ok (SQLitePersistence.new false false none)
        "flags" "my-boolean-flag" "true") "flags" "my-boolean-flag"
      ≠ Outcome.returns (some "true") := by
  refine ⟨⟨_, rfl, Table.select_upsert_self _ _ _ _⟩, ?_, by decide, by decide⟩
  simp [SQLitePersistence.Read, SQLitePersistence.Set, sqlite3_prepare_v2, Engine.ok,
    Table.select_upsert_self]

/-- C3, refuted as stated: the distinct pairs `("a-b","c")` and `("a","b-c")`,
free of the path separator, have the same file name, and the second `Set`
overwrites the entry of the first. So do the pairs `("a\x00x","k")` and
`("a\x00y","k")`, whose file names differ as strings and are the one file
`cache/a` for the operating system. -/
theorem file_isolation_counterexample :
    ((("a-b", "c") : String × String) ≠ ("a", "b-c") ∧
      preferred_separator ∉ "a-b".data ∧ preferred_separator ∉ "c".data ∧
      preferred_separator ∉ "a".data ∧ preferred_separator ∉ "b-c".data ∧
      FilePersistence.filename ⟨"cache"⟩ "a-b" "c"
        = FilePersistence.filename ⟨"cache"⟩ "a" "b-c" ∧
      FilePersistence.Read OS.ok ⟨"cache"⟩
        (FilePersistence.Set OS.ok ⟨"cache"⟩
          (FilePersistence.Set OS.ok ⟨"cache"⟩ [] "a-b" "c" "x") "a" "b-c" "y")
        "a-b" "c" = Outcome.returns (some "y")) ∧
    ((("a\x00x", "k") : String × String) ≠ ("a\x00y", "k") ∧
      preferred_separator ∉ "a\x00x".data ∧ preferred_separator ∉ "a\x00y".data ∧
      preferred_separator ∉ "k".data ∧
      FilePersistence.Set OS.ok ⟨"cache"⟩
          (FilePersistence.Set OS.ok ⟨"cache"⟩ [] "a\x00x" "k" "x") "a\x00y" "k" "y"
        = [("cache/a", "y")] ∧
      FilePersistence.Read OS.ok ⟨"cache"⟩
        (FilePersistence.Set OS.ok ⟨"cache"⟩
          (FilePersistence.Set OS.ok ⟨"cache"⟩ [] "a\x00x" "k" "x") "a\x00y" "k" "y")
        "a\x00x" "k" = Outcome.returns (some "y")) := by
  decide

/-- C3, amended. Distinct pairs are distinct entries of the file store when,
beyond the path separator, no component and not the base path holds the zero
terminator and no namespace holds the character `-`: the two file names differ,
and after `Set(ns1,k1,x)` then `Set(ns2,k2,y)` on a working store,
`Read(ns1,k1)` is `x` and `Read(ns2,k2)` is `y`. -/
theorem file_isolation (self : FilePersistence) (fs : FS) (ns₁ k₁ ns₂ k₂ x y : String)
    (hne : (ns₁, k₁) ≠ (ns₂, k₂))
    (hs₁ : preferred_separator ∉ ns₁.data) (_hs₂ : preferred_separator ∉ k₁.data)
    (hs₃ : preferred_separator ∉ ns₂.data) (_hs₄ : preferred_separator ∉ k₂.data)
    (hb : '\x00' ∉ self._basePath.data)
    (hz₁ : '\x00' ∉ ns₁.data) (hz₂ : '\x00' ∉ k₁.data)
    (hz₃ : '\x00' ∉ ns₂.data) (hz₄ : '\x00' ∉ k₂.data)
    (hd₁ : '-' ∉ ns₁.data) (hd₂ : '-' ∉ ns₂.data) :
    self.filename ns₁ k₁ ≠ self.filename ns₂ k₂ ∧
    self.Read OS.ok (self.Set OS.ok (self.Set OS.ok fs ns₁ k₁ x) ns₂ k₂ y) ns₁ k₁
      = Outcome.returns (some x) ∧
    self.Read OS.ok (self.Set OS.ok (self.Set OS.ok fs ns₁ k₁ x) ns₂ k₂ y) ns₂ k₂
      = Outcome.returns (some y) := by
  have hF : self.filename ns₁ k₁ ≠ self.filename ns₂ k₂ := by
    intro h
    obtain ⟨e₁, e₂⟩ := self.filename_inj ns₁ k₁ ns₂ k₂ (is_absolute_of_not_mem ns₁ hs₁)
      (is_absolute_of_not_mem ns₂ hs₃) hd₁ hd₂ h
    exact hne (by rw [e₁, e₂])
  have c₁ := self.c_str_filename ns₁ k₁ hb hz₁ hz₂
  have c₂ := self.c_str_filename ns₂ k₂ hb hz₃ hz₄
  have t₂ := self.c_str_tempFilename ns₂ k₂ hb hz₃ hz₄
  have hT : self.filename ns₁ k₁ ≠ self.tempFilename ns₂ k₂ :=
    fun h => self.tempFilename_ne_filename self ns₂ k₂ ns₁ k₁ h.symm
  refine ⟨hF, ?_, ?_⟩
  · rw [FilePersistence.Read_eq, FilePersistence.lookup_Set_ok, c₁, c₂, t₂, if_neg hF,
      if_neg hT, FilePersistence.lookup_Set_ok, c₁, if_pos rfl]
  · rw [FilePersistence.Read_eq, FilePersistence.lookup_Set_ok, if_pos rfl]

/-- Instance of C3 (amended) on the pairs `("a","k")` and `("b","k")` of the
specification. -/
theorem file_isolation_witness :
    FilePersistence.filename ⟨"cache"⟩ "a" "k" ≠ FilePersistence.filename ⟨"cache"⟩ "b" "k" ∧
    FilePersistence.Read OS.ok ⟨"cache"⟩
      (FilePersistence.Set OS.ok ⟨"cache"⟩
        (FilePersistence.Set OS.ok ⟨"cache"⟩ [] "a" "k" "x") "b" "k" "y") "a" "k"
      = Outcome.returns (some "x") ∧
    FilePersistence.Read OS.ok ⟨"cache"⟩
      (FilePersistence.Set OS.ok ⟨"cache"⟩
        (FilePersistence.Set OS.ok ⟨"cache"⟩ [] "a" "k" "x") "b" "k" "y") "b" "k"
      = Outcome.returns (some "y") :=
  file_isolation ⟨"cache"⟩ [] "a" "k" "b" "k" "x" "y" (by decide) (by decide) (by decide)
    (by decide) (by decide) (by decide) (by decide) (by decide) (by decide) (by decide)
    (by decide) (by decide)

/-- C4, evaluated on the code. After `Set(ns,k,v1)` then `Set(ns,k,v2)` on a
working store, for every namespace, key and values: the file store returns `v2`
to `Read(ns,k)`, holds one file under the committed name of the pair and none
under its staging name when the two names differ; the table, which satisfies
its primary key before, satisfies it after and holds one row for the pair,
with `v2` cut at its first zero terminator. But `Read(ns,k)` on the structured
store finds that row and copies its text after `sqlite3_finalize` released
it: it does not return `v2`, it reads released storage. -/
theorem upsert_one_entry (self : FilePersistence) (fs : FS) (t : Table)
    (ns k v₁ v₂ : String) (hpk : PrimaryKey t) :
    (self.Read OS.ok (self.Set OS.ok (self.Set OS.ok fs ns k v₁) ns k v₂) ns k
        = Outcome.returns (some v₂) ∧
      (self.Set OS.ok (self.Set OS.ok fs ns k v₁) ns k v₂).count (c_str (self.filename ns k))
        = 1 ∧
      (c_str (self.tempFilename ns k) ≠ c_str (self.filename ns k) →
        (self.Set OS.ok (self.Set OS.ok fs ns k v₁) ns k v₂).count
          (c_str (self.tempFilename ns k)) = 0)) ∧
    (∃ t', SQLitePersistence.Set Engine.ok (SQLitePersistence.Set Engine.ok ⟨some t⟩ ns k v₁)
          ns k v₂ = ⟨some t'⟩ ∧
        t'.count (c_str ns) (c_str k) = 1 ∧
        t'.select (c_str ns) (c_str k) = some (c_str v₂) ∧ PrimaryKey t') ∧
    SQLitePersistence.Read Engine.ok
        (SQLitePersistence.Set Engine.ok (SQLitePersistence.Set Engine.ok ⟨some t⟩ ns k v₁)
          ns k v₂) ns k = Outcome.undefined := by
  refine ⟨⟨?_, ?_, ?_⟩, ?_, ?_⟩
  · rw [FilePersistence.Read_eq, FilePersistence.lookup_Set_ok, if_pos rfl]
  · rw [FilePersistence.Set_ok]
    exact FS.count_write_self _ _ _
  · intro hTF
    rw [FilePersistence.Set_ok, FS.count_write_of_ne _ _ _ _ hTF]
    exact FS.count_erase_self _ _
  · refine ⟨(t.upsert (c_str ns) (c_str k) (c_str v₁)).upsert (c_str ns) (c_str k) (c_str v₂),
      rfl, ?_, ?_, ?_⟩
    · exact Table.count_upsert_self _ _ _ _ (Table.primaryKey_upsert _ _ _ _ hpk)
    · exact Table.select_upsert_self _ _ _ _
    · exact Table.primaryKey_upsert _ _ _ _ (Table.primaryKey_upsert _ _ _ _ hpk)
  · simp [SQLitePersistence.Read, SQLitePersistence.Set, sqlite3_prepare_v2, Engine.ok,
      Table.select_upsert_self]

/-- Instance of C4 on a store that holds another entry: the file store returns
the second value, the structured store reads released storage. -/
theorem upsert_one_entry_witness :
    PrimaryKey [⟨"flags", "other", "1"⟩] ∧
    FilePersistence.Read OS.ok ⟨"cache"⟩
      (FilePersistence.Set OS.ok ⟨"cache"⟩
        (FilePersistence.Set OS.ok ⟨"cache"⟩ [("cache/flags-other.json", "1")]
          "flags" "k" "false") "flags" "k" "true") "flags" "k"
      = Outcome.returns (some "true") ∧
    SQLitePersistence.Read Engine.ok
      (SQLitePersistence.Set Engine.ok
        (SQLitePersistence.Set Engine.ok ⟨some [⟨"flags", "other", "1"⟩]⟩ "flags" "k" "false")
        "flags" "k" "true") "flags" "k" = Outcome.undefined :=
  ⟨by decide,
    (upsert_one_entry ⟨"cache"⟩ [("cache/flags-other.json", "1")] [⟨"flags", "other", "1"⟩]
      "flags" "k" "false" "true" (by decide)).1.1,
    (upsert_one_entry ⟨"cache"⟩ [("cache/flags-other.json", "1")] [⟨"flags", "other", "1"⟩]
      "flags" "k" "false" "true" (by decide)).2.2⟩

/-- C5, refuted as stated: with base `cache`, namespace `flags` and key `k`, a
file at `cache/flags-k.data` is not what `Read` returns, `Set` leaves nothing
at that path and `Remove` leaves a file there untouched. With the namespace
`/flags` the entry is `/flags-k.json`, outside the base; with the key `"k\x00"`
it is `cache/flags-k`. -/
theorem file_layout_counterexample :
    FilePersistence.Set OS.ok ⟨"cache"⟩ [] "/flags" "k" "v" = [("/flags-k.json", "v")] ∧
    FilePersistence.Set OS.ok ⟨"cache"⟩ [] "flags" "k\x00" "v" = [("cache/flags-k", "v")] ∧
    FilePersistence.Read OS.ok ⟨"cache"⟩ [("cache/flags-k.data", "v")] "flags" "k"
      = Outcome.returns none ∧
    FilePersistence.Set OS.ok ⟨"cache"⟩ [] "flags" "k" "v" = [("cache/flags-k.json", "v")] ∧
    (FilePersistence.Set OS.ok ⟨"cache"⟩ [] "flags" "k" "v").lookup "cache/flags-k.data"
      = none ∧
    FilePersistence.stage OS.ok ⟨"cache"⟩ [] "flags" "k" "v"
      = some [("cache/flags-k.json.tmp", "v")] ∧
    FilePersistence.Remove OS.ok ⟨"cache"⟩ [("cache/flags-k.data", "v")] "flags" "k"
      = [("cache/flags-k.data", "v")] := by
  decide

/-- C5, amended. File layout: for every base path that has a filename (it is
not empty and does not end with the separator), every namespace that does not
start with the separator, and every key, none of them holding the zero
terminator, on a working store `Read` returns the content of
`<base>/<namespace>-<key>.json`, `Remove` deletes that file and no other,
`Set` leaves the value at that path, nothing at
`<base>/<namespace>-<key>.json.tmp` and every other file as it was, and the
first part of `Set` stages the value at `<base>/<namespace>-<key>.json.tmp`
and leaves every other file as it was. -/
theorem file_layout (base ns key : String)
    (hf : has_filename base = true) (ha : is_absolute ns = false)
    (hb : '\x00' ∉ base.data) (hn : '\x00' ∉ ns.data) (hk : '\x00' ∉ key.data) :
    (∀ fs : FS, FilePersistence.Read OS.ok ⟨base⟩ fs ns key
        = Outcome.returns (fs.lookup (base ++ "/" ++ ns ++ "-" ++ key ++ ".json"))) ∧
    (∀ (fs : FS) (q : String), (FilePersistence.Remove OS.ok ⟨base⟩ fs ns key).lookup q
        = if q = base ++ "/" ++ ns ++ "-" ++ key ++ ".json" then none else fs.lookup q) ∧
    (∀ (fs : FS) (data q : String), (FilePersistence.Set OS.ok ⟨base⟩ fs ns key data).lookup q
        = if q = base ++ "/" ++ ns ++ "-" ++ key ++ ".json" then some data
          else if q = base ++ "/" ++ ns ++ "-" ++ key ++ ".json" ++ ".tmp" then none
          else fs.lookup q) ∧
    (∀ (fs : FS) (data : String), ∃ fs1,
        FilePersistence.stage OS.ok ⟨base⟩ fs ns key data = some fs1 ∧
        ∀ q : String, fs1.lookup q
          = if q = base ++ "/" ++ ns ++ "-" ++ key ++ ".json" ++ ".tmp" then some data
            else fs.lookup q) := by
  have eF := FilePersistence.filename_eq base ns key hf ha
  have cF := FilePersistence.c_str_filename ⟨base⟩ ns key hb hn hk
  have cT := FilePersistence.c_str_tempFilename ⟨base⟩ ns key hb hn hk
  have eT : FilePersistence.tempFilename ⟨base⟩ ns key
      = base ++ "/" ++ ns ++ "-" ++ key ++ ".json" ++ ".tmp" := by
    rw [FilePersistence.tempFilename, eF]
  rw [eF] at cF
  rw [eT] at cT
  refine ⟨?_, ?_, ?_, ?_⟩
  · intro fs
    rw [FilePersistence.Read_eq, eF, cF]
  · intro fs q
    rw [FilePersistence.Remove_ok, eF, cF, FS.lookup_erase]
  · intro fs data q
    rw [FilePersistence.lookup_Set_ok, eF, eT, cF, cT]
  · intro fs data
    refine ⟨_, FilePersistence.stage_ok _ fs ns key data, ?_⟩
    intro q
    rw [eT, cT]
    simp only [FS.lookup_write]
    split <;> rfl

/-- Instance of C5 (amended) with base `/tmp/cache`, namespace `flags` and key
`my-boolean-flag`. -/
theorem file_layout_witness :
    (has_filename "/tmp/cache" = true ∧ is_absolute "flags" = false) ∧
    ∀ fs : FS, FilePersistence.Read OS.ok ⟨"/tmp/cache"⟩ fs "flags" "my-boolean-flag"
      = Outcome.returns
        (fs.lookup ("/tmp/cache" ++ "/" ++ "flags" ++ "-" ++ "my-boolean-flag" ++ ".json")) :=
  ⟨⟨by decide, by decide⟩,
    (file_layout "/tmp/cache" "flags" "my-boolean-flag" (by decide) (by decide) (by decide)
      (by decide) (by decide)).1⟩

/-- C7, evaluated on the code: when `create_directories` fails for the base
path `/dev/null/cache`, the constructor of `FilePersistence` does not return a
backend: the `filesystem_error` leaves it. -/
theorem file_init_raises :
    FilePersistence.new ⟨true, false, none, false, false, false⟩ [] "/dev/null/cache"
      = Except.error filesystem_error.create_directories := by
  rfl

/-- C9. Path resolver priority: `getCacheBaseDirectory` returns the value of
`LD_CACHE_DIR` whenever it is set, whatever `XDG_CACHE_HOME` is; otherwise the
temporary directory joined with `launchdarkly` when `XDG_CACHE_HOME` is set,
whatever its value; otherwise the temporary directory. -/
theorem getCacheBaseDirectory_priority (getenv : String → Option String) (T : String) :
    (∀ d : String, getenv "LD_CACHE_DIR" = some d → getCacheBaseDirectory getenv T = d) ∧
    (∀ x : String, getenv "LD_CACHE_DIR" = none → getenv "XDG_CACHE_HOME" = some x →
      getCacheBaseDirectory getenv T = pathAppend T "launchdarkly") ∧
    (getenv "LD_CACHE_DIR" = none → getenv "XDG_CACHE_HOME" = none →
      getCacheBaseDirectory getenv T = T) := by
  refine ⟨?_, ?_, ?_⟩
  · intro d h
    simp [getCacheBaseDirectory, h]
  · intro x h₁ h₂
    simp [getCacheBaseDirectory, h₁, h₂]
  · intro h₁ h₂
    simp [getCacheBaseDirectory, h₁, h₂]

/-- Instance of C9 on the three environments, with `/tmp` as the temporary
directory. -/
theorem getCacheBaseDirectory_priority_witness :
    getCacheBaseDirectory
      (fun name => if name = "LD_CACHE_DIR" then some "/var/ld"
        else if name = "XDG_CACHE_HOME" then some "/home/u/.cache" else none) "/tmp"
      = "/var/ld" ∧
    getCacheBaseDirectory
      (fun name => if name = "XDG_CACHE_HOME" then some "/home/u/.cache" else none) "/tmp"
      = "/tmp/launchdarkly" ∧
    getCacheBaseDirectory (fun _ => none) "/tmp" = "/tmp" :=
  ⟨(getCacheBaseDirectory_priority _ "/tmp").1 "/var/ld" (by decide),
    (getCacheBaseDirectory_priority
      (fun name => if name = "XDG_CACHE_HOME" then some "/home/u/.cache" else none)
      "/tmp").2.1 "/home/u/.cache" (by decide) (by decide),
    (getCacheBaseDirectory_priority (fun _ => none) "/tmp").2.2 rfl rfl⟩

/-- C10, evaluated on the code: the committed file of `("flags","k")` holds
`"false"`; during `Set` of `"true"` the temporary file opens and the write
fails after two characters. The rename is performed all the same: the committed
file holds `"tr"` and `Read` returns it. -/
theorem partial_write_is_committed :
    FilePersistence.Set ⟨false, false, some 2, false, false, false⟩ ⟨"cache"⟩
      [("cache/flags-k.json", "false")] "flags" "k" "true" = [("cache/flags-k.json", "tr")] ∧
    FilePersistence.Read OS.ok ⟨"cache"⟩
      (FilePersistence.Set ⟨false, false, some 2, false, false, false⟩ ⟨"cache"⟩
        [("cache/flags-k.json", "false")] "flags" "k" "true") "flags" "k"
      = Outcome.returns (some "tr") := by
  decide

end LDPersistence
